import Mathlib

set_option maxRecDepth 4000

/-!
Verification development for the `rust-gui-test` repository (src/src/main.rs).

The program embeds a glow (OpenGL) painter inside an eframe/egui window.
The GPU-facing code is shallowly embedded here:

* GL calls issued by `paint` and `destroy` become an explicit trace of
  `GLCmd` values, so claims about which commands a call issues (draws,
  uploads, deletions, allocations) are statements about that trace.
* The `counter : f32` field of `RotatingTriangle` is modelled twice,
  following the source's update
  `if counter > 1.0 { counter = 0.0 }; counter += 0.05`:
  - `counterStep` / `counterAfter` use exact rational arithmetic
    (`ℚ`, step `1/20`, threshold `1`), the idealisation the spec's
    "exact (rational) step arithmetic" properties quantify over;
  - `counterStepF32` / `counterAfterF32` are bit-exact: every f32 value
    the counter can hold lies in [0, 1.1) and is an integer multiple of
    2^-28, so states are integers at scale 2^-28 and `round28` performs
    IEEE-754 binary32 round-to-nearest-even after each addition.  The
    f32 literal `0.05f32` is `13421773 * 2^-28`.
* Shader compilation and linking (`create_program` / `create_shader`) are
  embedded relative to an oracle `GLShaderOracle` giving the compile/link
  statuses and info logs of the GL implementation; the Rust `assert!`
  panics become `Except.error` with the same message text.
-/

namespace RustGuiTest

/-- GL enum constants used by the source (values from the OpenGL spec,
as exported by glow). -/
def ARRAY_BUFFER : Nat := 34962

def ELEMENT_ARRAY_BUFFER : Nat := 34963

def STATIC_DRAW : Nat := 35044

def TRIANGLES : Nat := 4

def FLOAT : Nat := 5126

def UNSIGNED_INT : Nat := 5125

def VERTEX_SHADER : Nat := 35633

def FRAGMENT_SHADER : Nat := 35632

/-- One GL call issued by the embedded code, as recorded in a trace. -/
inductive GLCmd where
  | createProgram (h : Nat)
  | createBuffer (h : Nat)
  | createVertexArray (h : Nat)
  | deleteProgram (h : Nat)
  | deleteVertexArray (h : Nat)
  | deleteBuffer (h : Nat)
  | bindBuffer (target : Nat) (h : Nat)
  | bufferDataU8Slice (target : Nat) (byteLen : Nat) (usage : Nat)
  | bindVertexArray (h : Nat)
  | enableVertexAttribArray (location : Nat)
  | vertexAttribPointerF32 (location comps dtype : Nat) (normalized : Bool)
      (stride offset : Nat)
  | useProgram (h : Nat)
  | uniform4F32 (name : String) (x y z w : ℚ)
  | drawElements (mode : Nat) (count : Nat) (dtype : Nat) (offset : Nat)
  deriving DecidableEq, Repr

/-- The state of `RotatingTriangle` (src/src/main.rs lines 78-84): four GL
object handles plus the animation counter. -/
structure RotatingTriangle where
  program : Nat
  vertex_array_object : Nat
  vertex_buffer_object : Nat
  index_buffer_object : Nat
  counter : ℚ
  deriving DecidableEq, Repr

/-- The vertex data built inside `paint` (line 123): four 2-component
positions of a quad, as exact rationals. -/
def vertices : List ℚ := [-1/2, -1/2, 1/2, -1/2, 1/2, 1/2, -1/2, 1/2]

/-- The index data built inside `paint` (line 126). -/
def indices : List Nat := [0, 1, 2, 2, 3, 0]

/-- One step of the animation counter as performed at the end of `paint`
(lines 155-159) under exact rational step arithmetic (the idealisation
the spec's properties stipulate; `counterStepF32` is the bit-exact
version): reset to 0 when strictly above 1, then add the fixed step
0.05 = 1/20. -/
def counterStep (c : ℚ) : ℚ := (if c > 1 then 0 else c) + 1 / 20

/-- The exact-arithmetic counter after `n` calls to `paint`, starting
from the constructor value 0 (line 106). -/
def counterAfter : Nat → ℚ
  | 0 => 0
  | n + 1 => counterStep (counterAfter n)

/-- Round-half-to-even of the integer `s` to a multiple of `u > 0`. -/
def rndHalfEven (s u : ℤ) : ℤ :=
  let q := s / u
  let r := s % u
  if 2 * r < u then u * q
  else if u < 2 * r then u * (q + 1)
  else if q % 2 = 0 then u * q else u * (q + 1)

/-- IEEE-754 binary32 round-to-nearest-even, on values represented as
integer multiples of 2^-28 (every f32 the counter can hold is one).
For a value in [2^(k-28+24), 2^(k-28+25)) the unit in the last place of
a 24-bit significand is 2^k * 2^-28, so each magnitude bucket rounds to
the matching multiple.  Values below 2^-4 at this scale are exactly
representable; the top bucket covers values up to 8, far above the
counter's range [0, 1.1). -/
def round28 (s : ℤ) : ℤ :=
  if s < 2 ^ 24 then s
  else if s < 2 ^ 25 then rndHalfEven s 2
  else if s < 2 ^ 26 then rndHalfEven s 4
  else if s < 2 ^ 27 then rndHalfEven s 8
  else if s < 2 ^ 28 then rndHalfEven s 16
  else if s < 2 ^ 29 then rndHalfEven s 32
  else rndHalfEven s 64

/-- The f32 literal `0.05f32` at scale 2^-28: 13421773 * 2^-28
= 0.05000000074505806. -/
def STEP28 : ℤ := 13421773

/-- One bit-exact f32 step of the counter at scale 2^-28 (lines
155-159): the strict `> 1.0f32` comparison is exact on the represented
values (1.0 is 2^28 at this scale), and `counter += 0.05f32` is exact
addition followed by binary32 rounding. -/
def counterStepF32 (c : ℤ) : ℤ :=
  round28 ((if 2 ^ 28 < c then 0 else c) + STEP28)

/-- The bit-exact f32 counter after `n` calls to `paint`, starting from
the constructor value 0 (line 106), at scale 2^-28. -/
def counterAfterF32 : Nat → ℤ
  | 0 => 0
  | n + 1 => counterStepF32 (counterAfterF32 n)

/-- The rational value of an f32 counter state at scale 2^-28. -/
def f32val (c : ℤ) : ℚ := (c : ℚ) / 2 ^ 28

/-- Whether the reset branch `counter = 0.0` executes during any of the
first `n` calls to `paint` starting from a fresh state: call `i + 1`
resets exactly when the entry counter `counterAfterF32 i` exceeds 1.0
(i.e. 2^28 at scale 2^-28). -/
def resetHappenedDuringF32 (n : Nat) : Bool :=
  (List.range n).any (fun i => decide (2 ^ 28 < counterAfterF32 i))

/-- `RotatingTriangle::paint` (lines 120-161): the GL trace it issues and
the successor state.  Byte lengths follow the source:
`vertices.len() * size_of f32` and `indices.len() * size_of u32`. -/
def RotatingTriangle.paint (s : RotatingTriangle) :
    List GLCmd × RotatingTriangle :=
  ([GLCmd.bindBuffer ARRAY_BUFFER s.vertex_buffer_object,
    GLCmd.bufferDataU8Slice ARRAY_BUFFER (vertices.length * 4) STATIC_DRAW,
    GLCmd.bindVertexArray s.vertex_array_object,
    GLCmd.enableVertexAttribArray 0,
    GLCmd.vertexAttribPointerF32 0 2 FLOAT false 8 0,
    GLCmd.bindBuffer ELEMENT_ARRAY_BUFFER s.index_buffer_object,
    GLCmd.bufferDataU8Slice ELEMENT_ARRAY_BUFFER (indices.length * 4)
      STATIC_DRAW,
    GLCmd.useProgram s.program,
    GLCmd.uniform4F32 "u_color" s.counter (1/5) (1/5) 1,
    GLCmd.drawElements TRIANGLES indices.length UNSIGNED_INT 0],
   { s with counter := counterStep s.counter })

/-- `RotatingTriangle::destroy` (lines 111-118): the GL trace it issues.
The source deletes the program, the vertex array and the vertex buffer;
it issues no delete for `index_buffer_object`. -/
def RotatingTriangle.destroy (s : RotatingTriangle) : List GLCmd :=
  [GLCmd.deleteProgram s.program,
   GLCmd.deleteVertexArray s.vertex_array_object,
   GLCmd.deleteBuffer s.vertex_buffer_object]

/-- The state after `n` calls to `paint` from state `s`. -/
def RotatingTriangle.stateAfter (s : RotatingTriangle) : Nat → RotatingTriangle
  | 0 => s
  | n + 1 => ((s.stateAfter n).paint).2

/-- The handles of the four GPU objects allocated by
`RotatingTriangle::new` (lines 91-99: program, vertex buffer, vertex
array, index buffer). -/
def RotatingTriangle.allocatedHandles (s : RotatingTriangle) : List Nat :=
  [s.program, s.vertex_buffer_object, s.vertex_array_object,
   s.index_buffer_object]

/-- The handles deleted by a GL trace. -/
def deletedHandles (cmds : List GLCmd) : List Nat :=
  cmds.filterMap fun c =>
    match c with
    | GLCmd.deleteProgram h => some h
    | GLCmd.deleteVertexArray h => some h
    | GLCmd.deleteBuffer h => some h
    | _ => none

/-- Whether a GL command allocates a new GPU object. -/
def GLCmd.isAllocation : GLCmd → Bool
  | GLCmd.createProgram _ => true
  | GLCmd.createBuffer _ => true
  | GLCmd.createVertexArray _ => true
  | _ => false

/-- Whether a GL command is a draw call. -/
def GLCmd.isDraw : GLCmd → Bool
  | GLCmd.drawElements _ _ _ _ => true
  | _ => false

/-- `RotatingTriangle::new` (lines 87-109) given already-allocated handles
for the program, vertex buffer, vertex array and index buffer: the counter
starts at 0. -/
def RotatingTriangle.new (program vbo vao ibo : Nat) : RotatingTriangle :=
  { program := program
    vertex_array_object := vao
    vertex_buffer_object := vbo
    index_buffer_object := ibo
    counter := 0 }

/-- The responses of the GL implementation to shader compilation and
program linking, abstracting `glow::HasContext`. `compileStatus` and
`shaderInfoLog` are functions of the stage enum and the exact source
string uploaded by `shader_source`. -/
structure GLShaderOracle where
  compileStatus : Nat → String → Bool
  shaderInfoLog : Nat → String → String
  linkStatus : Bool
  programInfoLog : String

/-- The string `create_shader` hands to the compiler (line 218):
the Rust `format!` interpolation of version directive, newline, body. -/
def sourceHandedToCompiler (shader_version shader_source : String) : String :=
  shader_version ++ "\n" ++ shader_source

/-- `VERTEX_SHADER_SOURCE` (lines 229-235). -/
def VERTEX_SHADER_SOURCE : String :=
  "\n    layout(location = 0) in vec4 position;\n\n    void main() \x7b\n        gl_Position = position;\n    \x7d\n"

/-- `FRAGMENT_SHADER_SOURCE` (lines 237-245). -/
def FRAGMENT_SHADER_SOURCE : String :=
  "\n    layout(location = 0) out vec4 color;\n\n    uniform vec4 u_color;\n\n    void main() \x7b\n        color = u_color;\n    \x7d\n"

/-- `create_shader` (lines 207-227) for a shader object handle `shader`:
returns the list of (stage, source) compilations requested, and either the
shader handle or, when the compile status is failure, the `assert!`
panic message carrying the compiler info log. -/
def create_shader (o : GLShaderOracle) (shader : Nat) (shader_type : Nat)
    (shader_source shader_version : String) :
    List (Nat × String) × Except String Nat :=
  let src := sourceHandedToCompiler shader_version shader_source
  ([(shader_type, src)],
   if o.compileStatus shader_type src then Except.ok shader
   else
     Except.error ("Failed to compile " ++ toString shader_type ++ ": "
       ++ o.shaderInfoLog shader_type src))

/-- The version directive chosen in `create_program` (lines 169-173):
"#version 300 es" when the target is wasm32, "#version 330" otherwise. -/
def shaderVersionFor (wasm32 : Bool) : String :=
  if wasm32 then "#version 300 es" else "#version 330"

/-- `create_program` (lines 164-205) for given handles of the program and
the two shader objects: compiles the fixed vertex and fragment sources
with the target's version directive, links, and returns the trace of
compilations together with either the program handle or the first fatal
`assert!` message (compiler log on compile failure, linker log on link
failure). -/
def create_program (o : GLShaderOracle) (wasm32 : Bool)
    (program vsh fsh : Nat) : List (Nat × String) × Except String Nat :=
  let shader_version := shaderVersionFor wasm32
  let vres := create_shader o vsh VERTEX_SHADER VERTEX_SHADER_SOURCE
    shader_version
  match vres.2 with
  | Except.error e => (vres.1, Except.error e)
  | Except.ok _ =>
    let fres := create_shader o fsh FRAGMENT_SHADER FRAGMENT_SHADER_SOURCE
      shader_version
    match fres.2 with
    | Except.error e => (vres.1 ++ fres.1, Except.error e)
    | Except.ok _ =>
      (vres.1 ++ fres.1,
       if o.linkStatus then Except.ok program
       else Except.error o.programInfoLog)

/-- Floor-based modulus on the rationals, used to state the spec's
"(N * 0.05) mod 1.05" formula. -/
def qmod (a b : ℚ) : ℚ := a - b * (⌊a / b⌋ : ℚ)

/-- Modelled from the spec: the claimed closed form for the counter,
"((N * 0.05) mod 1.05)".  This follows the spec's words, to be compared
with `counterAfter`, which follows the source. -/
def specCounterFormula (n : Nat) : ℚ := qmod ((n : ℚ) * (1 / 20)) (21 / 20)

/-- A GL implementation on which every compile and link succeeds. -/
def oracleAllOk : GLShaderOracle :=
  { compileStatus := fun _ _ => true
    shaderInfoLog := fun _ _ => ""
    linkStatus := true
    programInfoLog := "" }

/-- A GL implementation on which every compile fails with log "vlog". -/
def oracleVertexFails : GLShaderOracle :=
  { compileStatus := fun _ _ => false
    shaderInfoLog := fun _ _ => "vlog"
    linkStatus := true
    programInfoLog := "plog" }

/-! ## Helper lemmas -/

/-- The counter after `n + 1` paints is `((n mod 21) + 1) / 20`: the
cycle visits 1/20, 2/20, ..., 21/20 and then restarts at 1/20. -/
theorem counterAfter_closed (n : Nat) :
    counterAfter (n + 1) = ((n % 21 : ℕ) + 1 : ℚ) / 20 := by
  induction n with
  | zero => norm_num [counterAfter, counterStep]
  | succ n ih =>
    show counterStep (counterAfter (n + 1)) = _
    rw [ih, counterStep]
    rcases Nat.lt_or_ge (n % 21) 20 with h | h
    · have hmod : (n + 1) % 21 = n % 21 + 1 := by omega
      have hle : (((n % 21 : ℕ) + 1 : ℚ)) / 20 ≤ 1 := by
        rw [div_le_one (by norm_num)]
        have : ((n % 21 : ℕ) + 1 : ℚ) ≤ 20 := by
          exact_mod_cast Nat.succ_le_of_lt h
        linarith
      rw [if_neg (not_lt.mpr hle), hmod]
      push_cast
      ring
    · have h20 : n % 21 = 20 := by omega
      have hmod : (n + 1) % 21 = 0 := by omega
      rw [h20, hmod]
      norm_num

/-- The counter always lies in the closed range [0, 21/20]. -/
theorem counterAfter_bounds (n : Nat) :
    0 ≤ counterAfter n ∧ counterAfter n ≤ 21/20 := by
  cases n with
  | zero => norm_num [counterAfter]
  | succ n =>
    rw [counterAfter_closed n]
    have hmod : n % 21 < 21 := Nat.mod_lt _ (by omega)
    have hcast : ((n % 21 : ℕ) + 1 : ℚ) ≤ 21 := by exact_mod_cast hmod
    constructor
    · positivity
    · rw [div_le_div_iff₀ (by norm_num) (by norm_num)]
      linarith

/-- `paint` updates the counter by exactly one `counterStep`. -/
theorem paint_counter (s : RotatingTriangle) :
    (s.paint).2.counter = counterStep s.counter := rfl

/-- Every `paint` trace contains the `u_color` upload whose first channel
is the pre-update counter. -/
theorem paint_uniform_mem (s : RotatingTriangle) :
    GLCmd.uniform4F32 "u_color" s.counter (1/5) (1/5) 1 ∈ (s.paint).1 := by
  simp [RotatingTriangle.paint]

/-- Painting from a fresh `new` state tracks `counterAfter`. -/
theorem stateAfter_counter (n : Nat) :
    ((RotatingTriangle.new 0 1 2 3).stateAfter n).counter = counterAfter n := by
  induction n with
  | zero => rfl
  | succ n ih =>
    show counterStep ((RotatingTriangle.new 0 1 2 3).stateAfter n).counter = _
    rw [ih]
    rfl

/-- The f32 trajectory repeats with period 20 from the first paint on:
the state after n + 21 paints equals the state after n + 1 paints. -/
theorem counterAfterF32_period (n : ℕ) :
    counterAfterF32 (n + 21) = counterAfterF32 (n + 1) := by
  induction n with
  | zero => decide
  | succ n ih =>
    show counterStepF32 (counterAfterF32 (n + 21))
      = counterStepF32 (counterAfterF32 (n + 1))
    rw [ih]

/-- Any paint count reduces into the first cycle: the f32 counter after
n paints equals the counter after ((n - 1) mod 20) + 1 paints (after 0
paints for n = 0). -/
theorem counterAfterF32_reduce (n : ℕ) :
    counterAfterF32 n
      = counterAfterF32 (if n = 0 then 0 else (n - 1) % 20 + 1) := by
  induction n using Nat.strong_induction_on with
  | _ n ih =>
    rcases Nat.lt_or_ge n 21 with h | h
    · cases n with
      | zero => rfl
      | succ m =>
        have hm : m % 20 = m := Nat.mod_eq_of_lt (by omega)
        simp [hm]
    · have h21 : n = (n - 21) + 21 := by omega
      have key : counterAfterF32 n = counterAfterF32 (n - 20) := by
        conv_lhs => rw [h21]
        rw [counterAfterF32_period]
        congr 1
        omega
      rw [key, ih (n - 20) (by omega)]
      rw [if_neg (show ¬ (n - 20 = 0) by omega),
        if_neg (show ¬ (n = 0) by omega)]
      congr 2
      omega

/-- The first cycle of the f32 counter stays within [0, 2^28 + 32]. -/
theorem counterAfterF32_first_cycle_bounds :
    ∀ r : ℕ, r ≤ 20 →
      0 ≤ counterAfterF32 r ∧ counterAfterF32 r ≤ 268435488 := by
  decide

/-! ## Claim theorems -/

/-- C1 counterexample: after 20 paints the f32 counter is
268435488 * 2^-28 = 1 + 2^-23 (the rounding errors of `+= 0.05f32`
accumulate past 1.0), which is not in the half-open range [0, 1) the
claim asserts. -/
theorem f32_counter_exits_unit_range :
    counterAfterF32 20 = 268435488 ∧ f32val 268435488 = 1 + 1 / 2 ^ 23 ∧
      ¬ f32val (counterAfterF32 20) < 1 := by
  refine ⟨by decide, by norm_num [f32val], ?_⟩
  rw [show counterAfterF32 20 = 268435488 by decide]
  norm_num [f32val]

/-- C1 (amended): in every reachable state the f32 counter lies in
[0, 1 + 2^-23] (so within [0, 1.05], but not within [0, 1)); whenever it
strictly exceeds 1.0 it is reset to 0 before the next increment, so the
next value is 0.05f32. -/
theorem f32_counter_range_and_reset (n : ℕ) :
    0 ≤ counterAfterF32 n ∧ counterAfterF32 n ≤ 268435488 ∧
      (2 ^ 28 < counterAfterF32 n → counterAfterF32 (n + 1) = STEP28) := by
  refine ⟨?_, ?_, ?_⟩
  · rw [counterAfterF32_reduce n]
    exact (counterAfterF32_first_cycle_bounds _ (by split <;> omega)).1
  · rw [counterAfterF32_reduce n]
    exact (counterAfterF32_first_cycle_bounds _ (by split <;> omega)).2
  · intro h
    show counterStepF32 (counterAfterF32 n) = STEP28
    rw [counterStepF32, if_pos h]
    decide

/-- C1 witness: the reset clause fires concretely at n = 20, where the
counter is 1 + 2^-23 > 1 and the next value is 0.05f32. -/
theorem f32_counter_range_and_reset_witness : counterAfterF32 21 = STEP28 :=
  (f32_counter_range_and_reset 20).2.2 (by decide)

/-- C2: `destroy` deletes exactly the program, the vertex array and the
vertex buffer; when the index buffer's handle differs from those three,
it is never deleted — the object allocated at line 99 is leaked. -/
theorem destroy_omits_index_buffer (s : RotatingTriangle) :
    deletedHandles s.destroy
        = [s.program, s.vertex_array_object, s.vertex_buffer_object] ∧
      (s.index_buffer_object ∉
          ([s.program, s.vertex_array_object, s.vertex_buffer_object] : List Nat) →
        s.index_buffer_object ∉ deletedHandles s.destroy) := by
  refine ⟨rfl, fun h => ?_⟩
  rw [show deletedHandles s.destroy
      = [s.program, s.vertex_array_object, s.vertex_buffer_object] from rfl]
  exact h

/-- C2 witness: with the distinct handles produced by `new 0 1 2 3`, the
index buffer (handle 3) is absent from the handles `destroy` deletes. -/
theorem destroy_omits_index_buffer_witness :
    (RotatingTriangle.new 0 1 2 3).index_buffer_object ∉
      deletedHandles ((RotatingTriangle.new 0 1 2 3).destroy) :=
  (destroy_omits_index_buffer (RotatingTriangle.new 0 1 2 3)).2 (by decide)

/-- C3 counterexample: at N = 21 the f32 counter is 0.05f32 (the reset
fired during call 21), but the claimed formula (N * 0.05) mod 1.05
gives 0, and the two differ. -/
theorem f32_counter_formula_fails_at_21 :
    counterAfterF32 21 = STEP28 ∧ specCounterFormula 21 = 0 ∧
      f32val (counterAfterF32 21) ≠ specCounterFormula 21 := by
  have h2 : specCounterFormula 21 = 0 := by
    norm_num [specCounterFormula, qmod]
  refine ⟨by decide, h2, ?_⟩
  rw [show counterAfterF32 21 = STEP28 by decide, h2]
  norm_num [f32val, STEP28]

/-- C3 (amended): the f32 counter after N paints is periodic with
period 20: for N ≥ 1 it equals the counter after ((N - 1) mod 20) + 1
paints, i.e. the f32 partial sum of that many copies of 0.05f32 — the
cycle re-enters at 0.05f32 (never 0) and peaks at 1 + 2^-23 after the
20th step of each cycle; no (N * 0.05) mod 1.05 formula holds. -/
theorem f32_counter_periodic_form (N : Nat) :
    counterAfterF32 N
        = counterAfterF32 (if N = 0 then 0 else (N - 1) % 20 + 1) ∧
      counterAfterF32 20 = 268435488 ∧
      counterAfterF32 21 = counterAfterF32 1 := by
  exact ⟨counterAfterF32_reduce N, by decide, by decide⟩

/-- C4 counterexample: during the first 20 paint calls the reset branch
never executes. -/
theorem f32_no_reset_in_first_20 : resetHappenedDuringF32 20 = false := by
  decide

/-- C4 (amended): no reset occurs during the first 20 paint calls; an
exact counter of 1.0 would not trigger the strict `> 1.0` check (the
step from 2^28 takes the no-reset branch and yields 1.05f32, still
above 1.0), but after 20 f32 increments the counter is 1 + 2^-23 > 1.0,
so the first reset executes during call 21. -/
theorem f32_first_reset_at_call_21 :
    resetHappenedDuringF32 20 = false ∧ resetHappenedDuringF32 21 = true ∧
      counterAfterF32 20 = 268435488 ∧
      counterStepF32 (2 ^ 28) = 281857216 ∧ (2 ^ 28 : ℤ) < 281857216 := by
  refine ⟨by decide, by decide, by decide, by decide, by decide⟩

/-- C5: each paint uploads the pre-update counter as the uniform's first
channel, then resets iff the counter strictly exceeds 1, then adds 1/20;
an overshoot value in (1, 21/20] is uploaded for exactly the next frame
and then wraps to 1/20. -/
theorem paint_reset_iff_exceeds_one (s : RotatingTriangle) :
    GLCmd.uniform4F32 "u_color" s.counter (1/5) (1/5) 1 ∈ (s.paint).1 ∧
      (s.paint).2.counter = (if 1 < s.counter then 0 else s.counter) + 1/20 ∧
      (1 < s.counter → (s.paint).2.counter = 1/20) ∧
      (¬ 1 < s.counter → (s.paint).2.counter = s.counter + 1/20) ∧
      (1 < (s.paint).2.counter →
        GLCmd.uniform4F32 "u_color" (s.paint).2.counter (1/5) (1/5) 1
            ∈ ((s.paint).2.paint).1 ∧
          ((s.paint).2.paint).2.counter = 1/20) := by
  refine ⟨paint_uniform_mem s, rfl, fun h => ?_, fun h => ?_, fun h => ?_⟩
  · rw [paint_counter, counterStep, if_pos h]
    norm_num
  · rw [paint_counter, counterStep, if_neg h]
  · refine ⟨paint_uniform_mem _, ?_⟩
    rw [paint_counter, counterStep, if_pos h]
    norm_num

/-- C5 witness: from a state with counter 21/20 > 1, the next paint
resets and leaves the counter at 1/20. -/
theorem paint_reset_iff_exceeds_one_witness :
    ((⟨0, 1, 2, 3, 21/20⟩ : RotatingTriangle).paint).2.counter = 1/20 :=
  (paint_reset_iff_exceeds_one ⟨0, 1, 2, 3, 21/20⟩).2.2.1 (by norm_num)

/-- C6: paint keeps all four GL handles, issues no allocation command,
and mutates only the counter field. -/
theorem paint_preserves_handles (s : RotatingTriangle) :
    (s.paint).2.program = s.program ∧
      (s.paint).2.vertex_array_object = s.vertex_array_object ∧
      (s.paint).2.vertex_buffer_object = s.vertex_buffer_object ∧
      (s.paint).2.index_buffer_object = s.index_buffer_object ∧
      ((s.paint).1.all fun c => ! c.isAllocation) = true ∧
      (s.paint).2 = { s with counter := counterStep s.counter } := by
  refine ⟨rfl, rfl, rfl, rfl, ?_, rfl⟩
  simp [RotatingTriangle.paint, GLCmd.isAllocation]

/-- C7: every source string handed to the shader compiler by
`create_program` is the dialect-version directive, a newline, then the
stage's fixed body; the directive is "#version 300 es" on wasm32 and
"#version 330" otherwise, and the vertex stage is always compiled. -/
theorem compiled_sources_are_version_and_body (o : GLShaderOracle)
    (wasm32 : Bool) (p v f : Nat) :
    (∀ entry ∈ (create_program o wasm32 p v f).1,
        entry = (VERTEX_SHADER,
            shaderVersionFor wasm32 ++ "\n" ++ VERTEX_SHADER_SOURCE) ∨
          entry = (FRAGMENT_SHADER,
            shaderVersionFor wasm32 ++ "\n" ++ FRAGMENT_SHADER_SOURCE)) ∧
      (VERTEX_SHADER, shaderVersionFor wasm32 ++ "\n" ++ VERTEX_SHADER_SOURCE)
          ∈ (create_program o wasm32 p v f).1 ∧
      shaderVersionFor true = "#version 300 es" ∧
      shaderVersionFor false = "#version 330" := by
  cases hv : o.compileStatus VERTEX_SHADER
      (shaderVersionFor wasm32 ++ "\n" ++ VERTEX_SHADER_SOURCE) with
  | false =>
    refine ⟨?_, ?_, rfl, rfl⟩ <;>
      simp [create_program, create_shader, hv, sourceHandedToCompiler]
  | true =>
    cases hf : o.compileStatus FRAGMENT_SHADER
        (shaderVersionFor wasm32 ++ "\n" ++ FRAGMENT_SHADER_SOURCE) with
    | false =>
      refine ⟨?_, ?_, rfl, rfl⟩ <;>
        simp [create_program, create_shader, hv, hf, sourceHandedToCompiler]
    | true =>
      refine ⟨?_, ?_, rfl, rfl⟩ <;>
        simp [create_program, create_shader, hv, hf, sourceHandedToCompiler]

/-- C7 witness: the vertex entry compiled on the desktop target is one of
the two admissible (stage, source) pairs. -/
theorem compiled_sources_witness :
    (VERTEX_SHADER, shaderVersionFor false ++ "\n" ++ VERTEX_SHADER_SOURCE)
        = (VERTEX_SHADER,
            shaderVersionFor false ++ "\n" ++ VERTEX_SHADER_SOURCE) ∨
      (VERTEX_SHADER, shaderVersionFor false ++ "\n" ++ VERTEX_SHADER_SOURCE)
        = (FRAGMENT_SHADER,
            shaderVersionFor false ++ "\n" ++ FRAGMENT_SHADER_SOURCE) :=
  (compiled_sources_are_version_and_body oracleAllOk false 0 1 2).1 _
    (compiled_sources_are_version_and_body oracleAllOk false 0 1 2).2.1

/-- C8: vertex-compile failure aborts with the vertex compiler log;
fragment-compile failure (after a successful vertex compile) aborts with
the fragment compiler log; link failure aborts with the linker log; when
every status is success, `create_program` returns the program. -/
theorem create_program_error_behavior (o : GLShaderOracle) (wasm32 : Bool)
    (p v f : Nat) :
    (o.compileStatus VERTEX_SHADER
          (sourceHandedToCompiler (shaderVersionFor wasm32)
            VERTEX_SHADER_SOURCE) = false →
        (create_program o wasm32 p v f).2
          = Except.error ("Failed to compile " ++ toString VERTEX_SHADER
              ++ ": " ++ o.shaderInfoLog VERTEX_SHADER
                (sourceHandedToCompiler (shaderVersionFor wasm32)
                  VERTEX_SHADER_SOURCE))) ∧
      (o.compileStatus VERTEX_SHADER
          (sourceHandedToCompiler (shaderVersionFor wasm32)
            VERTEX_SHADER_SOURCE) = true →
        o.compileStatus FRAGMENT_SHADER
          (sourceHandedToCompiler (shaderVersionFor wasm32)
            FRAGMENT_SHADER_SOURCE) = false →
        (create_program o wasm32 p v f).2
          = Except.error ("Failed to compile " ++ toString FRAGMENT_SHADER
              ++ ": " ++ o.shaderInfoLog FRAGMENT_SHADER
                (sourceHandedToCompiler (shaderVersionFor wasm32)
                  FRAGMENT_SHADER_SOURCE))) ∧
      (o.compileStatus VERTEX_SHADER
          (sourceHandedToCompiler (shaderVersionFor wasm32)
            VERTEX_SHADER_SOURCE) = true →
        o.compileStatus FRAGMENT_SHADER
          (sourceHandedToCompiler (shaderVersionFor wasm32)
            FRAGMENT_SHADER_SOURCE) = true →
        o.linkStatus = false →
        (create_program o wasm32 p v f).2 = Except.error o.programInfoLog) ∧
      (o.compileStatus VERTEX_SHADER
          (sourceHandedToCompiler (shaderVersionFor wasm32)
            VERTEX_SHADER_SOURCE) = true →
        o.compileStatus FRAGMENT_SHADER
          (sourceHandedToCompiler (shaderVersionFor wasm32)
            FRAGMENT_SHADER_SOURCE) = true →
        o.linkStatus = true →
        (create_program o wasm32 p v f).2 = Except.ok p) := by
  refine ⟨fun hv => ?_, fun hv hf => ?_, fun hv hf hl => ?_,
    fun hv hf hl => ?_⟩ <;>
    simp [create_program, create_shader, hv, *]

/-- C8 witness: on an all-failing GL implementation the vertex compile
aborts construction with its log; on an all-succeeding one the program is
returned. -/
theorem create_program_error_behavior_witness :
    (create_program oracleVertexFails false 0 1 2).2
        = Except.error ("Failed to compile " ++ toString VERTEX_SHADER
            ++ ": " ++ oracleVertexFails.shaderInfoLog VERTEX_SHADER
              (sourceHandedToCompiler (shaderVersionFor false)
                VERTEX_SHADER_SOURCE)) ∧
      (create_program oracleAllOk false 0 1 2).2 = Except.ok 0 :=
  ⟨(create_program_error_behavior oracleVertexFails false 0 1 2).1 rfl,
   (create_program_error_behavior oracleAllOk false 0 1 2).2.2.2 rfl rfl rfl⟩

/-- C9: every paint issues exactly one draw call — an indexed
triangle-list draw consuming all 6 indices of the fixed quad index list
[0,1,2,2,3,0]; the index count is never zero. -/
theorem paint_issues_one_indexed_draw (s : RotatingTriangle) :
    ((s.paint).1.filter fun c => c.isDraw)
        = [GLCmd.drawElements TRIANGLES indices.length UNSIGNED_INT 0] ∧
      indices = [0, 1, 2, 2, 3, 0] ∧ indices.length = 6 ∧
      0 < indices.length := by
  refine ⟨?_, rfl, rfl, by norm_num [indices]⟩
  simp [RotatingTriangle.paint, GLCmd.isDraw]

/-- C10: `counterStep` preserves "the counter is k/20 for some natural
k ≤ 21"; the boundary values 1 (after 20 paints) and 21/20 (after 21)
are attained and are uploaded as the uniform's first channel on the
following paint; the counter always lies in [0, 21/20]. -/
theorem counter_is_multiple_of_step_up_to_21 :
    (∀ c : ℚ, (∃ k : ℕ, k ≤ 21 ∧ c = (k : ℚ) / 20) →
        ∃ k : ℕ, k ≤ 21 ∧ counterStep c = (k : ℚ) / 20) ∧
      counterAfter 20 = 1 ∧ counterAfter 21 = 21/20 ∧
      GLCmd.uniform4F32 "u_color" 1 (1/5) (1/5) 1
          ∈ (((RotatingTriangle.new 0 1 2 3).stateAfter 20).paint).1 ∧
      GLCmd.uniform4F32 "u_color" (21/20) (1/5) (1/5) 1
          ∈ (((RotatingTriangle.new 0 1 2 3).stateAfter 21).paint).1 ∧
      (∀ n : ℕ, 0 ≤ counterAfter n ∧ counterAfter n ≤ 21/20) := by
  have h20 : counterAfter 20 = 1 := by
    rw [show (20 : Nat) = 19 + 1 from rfl, counterAfter_closed]
    norm_num
  have h21 : counterAfter 21 = 21/20 := by
    rw [show (21 : Nat) = 20 + 1 from rfl, counterAfter_closed]
    norm_num
  refine ⟨?_, h20, h21, ?_, ?_, ?_⟩
  · rintro c ⟨k, hk, rfl⟩
    rcases Nat.lt_or_ge k 21 with h | h
    · have hle : ((k : ℚ)) / 20 ≤ 1 := by
        rw [div_le_one (by norm_num)]
        exact_mod_cast Nat.le_of_lt_succ (by omega)
      refine ⟨k + 1, by omega, ?_⟩
      rw [counterStep, if_neg (not_lt.mpr hle)]
      push_cast
      ring
    · have hk21 : k = 21 := by omega
      subst hk21
      refine ⟨1, by omega, ?_⟩
      rw [counterStep, if_pos (by norm_num)]
      norm_num
  · have := paint_uniform_mem ((RotatingTriangle.new 0 1 2 3).stateAfter 20)
    rwa [stateAfter_counter, h20] at this
  · have := paint_uniform_mem ((RotatingTriangle.new 0 1 2 3).stateAfter 21)
    rwa [stateAfter_counter, h21] at this
  · exact counterAfter_bounds

/-- C10 witness: the multiple-of-1/20 invariant is preserved concretely
at the boundary value 1 = 20/20. -/
theorem counter_is_multiple_of_step_up_to_21_witness :
    ∃ k : ℕ, k ≤ 21 ∧ counterStep 1 = (k : ℚ) / 20 :=
  counter_is_multiple_of_step_up_to_21.1 1 ⟨20, by norm_num⟩

end RustGuiTest
